import Mathlib

/-!
# Verification of the `APIClient` retry dispatcher and `Config` loader

Shallow embedding of `src/base/api_client.py` (class `APIClient`: the
`_make_request` retry loop, header merging, `set_api_key`, `get_status`)
and of `src/base/config.py` (class `Config`: file-then-environment loading).

Python dictionaries are embedded as association lists with first-match
lookup and replace-in-place update (faithful for duplicate-free lists, which
is what Python dicts produce).  `requests`' `CaseInsensitiveDict` (used for
session/response headers) is embedded by the `ci*` variants that compare
lower-cased keys and store the most recent key spelling.  Side effects of
the dispatch loop (log calls, `time.sleep`, the `session.request` network
call) are recorded in an event trace; exceptions are an `Except` outcome.
-/

namespace HfBase

/-- Python `dict.__setitem__`: replace the value at an existing key in
place, otherwise append the new binding at the end. -/
def pySet {α : Type} : List (String × α) → String → α → List (String × α)
  | [], k, v => [(k, v)]
  | (k', v') :: rest, k, v =>
      if k' = k then (k, v) :: rest else (k', v') :: pySet rest k v

/-- Python `dict.get` / `dict.__getitem__`: first binding with the key. -/
def pyGet {α : Type} : List (String × α) → String → Option α
  | [], _ => none
  | (k', v') :: rest, k => if k' = k then some v' else pyGet rest k

/-- Python `str.lower()` (ASCII), character by character. -/
def lowerStr (s : String) : String := String.mk (s.data.map Char.toLower)

/-- Python `str.startswith(p)`. -/
def startsWithStr (s p : String) : Bool := p.data.isPrefixOf s.data

/-- Python `str.rstrip(c)`: remove every trailing occurrence of `c`. -/
def pyRstrip (s : String) (c : Char) : String :=
  String.mk ((s.data.reverse.dropWhile (fun x => x == c)).reverse)

/-- `requests.structures.CaseInsensitiveDict.__setitem__`: keys compare
lower-cased; the new key spelling and value replace a colliding entry. -/
def ciSet : List (String × String) → String → String → List (String × String)
  | [], k, v => [(k, v)]
  | (k', v') :: rest, k, v =>
      if lowerStr k' = lowerStr k then (k, v) :: rest
      else (k', v') :: ciSet rest k v

/-- `CaseInsensitiveDict.get`: lookup comparing lower-cased keys. -/
def ciGet : List (String × String) → String → Option String
  | [], _ => none
  | (k', v') :: rest, k =>
      if lowerStr k' = lowerStr k then some v' else ciGet rest k

/-- `CaseInsensitiveDict.update(other)`: insert each binding of `other`
in iteration order. -/
def ciUpdate (d upd : List (String × String)) : List (String × String) :=
  upd.foldl (fun acc kv => ciSet acc kv.1 kv.2) d

/-- Python `dict.update(other)`: insert each binding in iteration order. -/
def pyUpdate {α : Type} (d upd : List (String × α)) : List (String × α) :=
  upd.foldl (fun acc kv => pySet acc kv.1 kv.2) d

/-! ## Python `int(str)` parsing, as used on the `Retry-After` header -/

/-- ASCII whitespace stripped by Python `int()` around a numeric literal. -/
def isPySpace (c : Char) : Bool :=
  c = ' ' || c = '\t' || c = '\n' || c = '\r'

/-- Tail of a Python integer literal after its first digit: digits with
single underscores allowed only between digits. -/
def digitTail : List Char → Bool
  | [] => true
  | '_' :: c :: rest => c.isDigit && digitTail rest
  | ['_'] => false
  | c :: rest => c.isDigit && digitTail rest

/-- Digit part of a Python integer literal: nonempty, starts with a digit,
underscores only between digits. -/
def digitsBody : List Char → Bool
  | [] => false
  | c :: rest => c.isDigit && digitTail rest

/-- Numeric value of a digit string, skipping grouping underscores. -/
def digitsVal (cs : List Char) : Nat :=
  cs.foldl (fun a c => if c = '_' then a else a * 10 + (c.toNat - 48)) 0

/-- Strip surrounding whitespace the way Python `int()` does. -/
def pyStrip (cs : List Char) : List Char :=
  ((cs.dropWhile isPySpace).reverse.dropWhile isPySpace).reverse

/-- Python `int(s)` on a string: optional surrounding whitespace, optional
sign, then a decimal literal.  `none` models a raised `ValueError`. -/
def pyParseInt (s : String) : Option Int :=
  match pyStrip s.toList with
  | [] => none
  | '-' :: rest =>
      if digitsBody rest then some (-(digitsVal rest : Int)) else none
  | '+' :: rest =>
      if digitsBody rest then some ((digitsVal rest : Int)) else none
  | cs => if digitsBody cs then some ((digitsVal cs : Int)) else none

/-- Python `int(x)` on a float (the `retry_delay` default of the
`Retry-After` lookup): truncation toward zero. -/
def pyIntOfRat (q : ℚ) : Int := if 0 ≤ q then q.floor else -((-q).floor)

/-! ## Data model of the dispatch loop (`APIClient._make_request`) -/

/-- A `requests.Response` as far as the retry loop inspects it:
`status_code`, the case-insensitive `headers` mapping, and the body. -/
structure Response where
  status : Nat
  headers : List (String × String)
  body : String
deriving DecidableEq

/-- Result of one `session.request` call: either a response object or a
raised `requests.RequestException` carrying its message. -/
inductive TransportResult where
  | resp (r : Response)
  | netExn (cause : String)
deriving DecidableEq

/-- Python exceptions the request path can raise. -/
inductive PyError where
  | requestException (msg : String)
  | valueError (msg : String)
  | httpError (status : Nat)
deriving DecidableEq

/-- Observable side effects of one dispatch: logger calls, the network
call of each attempt, and `time.sleep` waits (seconds). -/
inductive Event where
  | logDebug (msg : String)
  | logWarning (msg : String)
  | logError (msg : String)
  | callEv (attempt : Nat)
  | sleepEv (seconds : ℚ)
deriving DecidableEq

/-- The `APIClient` fields the verified paths read or write. -/
structure ClientState where
  baseUrl : String
  apiKey : Option String
  timeout : Int
  maxRetries : Nat
  retryDelay : ℚ
  sessionHeaders : List (String × String)
deriving DecidableEq

/-- Line 144: `int(response.headers.get('Retry-After', self.retry_delay))`.
A present header is parsed as a Python int (`ValueError` on failure, the
`.error` case); an absent header truncates the float `retry_delay`. -/
def retryAfterValue (r : Response) (retryDelay : ℚ) : Except String Int :=
  match ciGet r.headers "Retry-After" with
  | some s =>
      match pyParseInt s with
      | some n => Except.ok n
      | none => Except.error ("invalid literal for int() with base 10: " ++ s)
  | none => Except.ok (pyIntOfRat retryDelay)

/-- Trace of side effects plus the final outcome of a dispatch: the
returned response, or the exception that escaped `_make_request`. -/
structure DispatchResult where
  trace : List Event
  outcome : Except PyError Response

/-- Line 127: `self.log_debug(f"Making {method} request to {url}
(attempt {attempt + 1})")`. -/
def attemptDbg (method url : String) (attempt : Nat) : Event :=
  Event.logDebug s!"Making {method} request to {url} (attempt {attempt + 1})"

/-- Line 140: `self.log_debug(f"Response status: {response.status_code}")`. -/
def statusDbg (sc : Nat) : Event :=
  Event.logDebug s!"Response status: {sc}"

/-- Line 145: the rate-limit warning naming the computed wait. -/
def rateWarn (ra : Int) : Event :=
  Event.logWarning s!"Rate limited, waiting {ra} seconds"

/-- Line 151: the server-error retry warning. -/
def serverWarn (sc : Nat) : Event :=
  Event.logWarning s!"Server error {sc}, retrying..."

/-- Line 159: the per-attempt network-failure warning. -/
def netWarn (attempt : Nat) (cause : String) : Event :=
  Event.logWarning s!"Request failed (attempt {attempt + 1}): {cause}"

/-- Line 162: the final error log carrying the attempt count and cause. -/
def netErr (attempts : Nat) (cause : String) : Event :=
  Event.logError s!"Request failed after {attempts} attempts: {cause}"

/-- The body of `for attempt in range(self.max_retries + 1)` in
`_make_request` (api_client.py lines 125–166).  `remaining` is the number
of loop iterations left (`max_retries + 1` at entry); running out of
iterations is line 166's generic raise.  Per iteration: debug log and
network call; a raised `requests.RequestException` retries with sleep
`retry_delay * (attempt + 1)` while `attempt < max_retries`, else re-raises
after an error log; a 429 response parses `Retry-After` (an unparsable
value raises `ValueError`, uncaught) and always sleeps and continues; a
status ≥ 500 with `attempt < max_retries` sleeps and continues; any other
response is returned. -/
def runAttempts (st : ClientState) (tr : Nat → TransportResult)
    (method url : String) : Nat → Nat → DispatchResult
  | _, 0 => ⟨[], Except.error (PyError.requestException "Max retries exceeded")⟩
  | attempt, remaining + 1 =>
      let dbg := attemptDbg method url attempt
      match tr attempt with
      | TransportResult.netExn cause =>
          if attempt < st.maxRetries then
            let rest := runAttempts st tr method url (attempt + 1) remaining
            { trace := dbg :: Event.callEv attempt :: netWarn attempt cause ::
                Event.sleepEv (st.retryDelay * ((attempt + 1 : Nat) : ℚ)) ::
                rest.trace,
              outcome := rest.outcome }
          else
            { trace := [dbg, Event.callEv attempt,
                netErr (st.maxRetries + 1) cause],
              outcome := Except.error (PyError.requestException cause) }
      | TransportResult.resp r =>
          let dbg2 := statusDbg r.status
          if r.status = 429 then
            match retryAfterValue r st.retryDelay with
            | Except.error m =>
                { trace := [dbg, Event.callEv attempt, dbg2],
                  outcome := Except.error (PyError.valueError m) }
            | Except.ok ra =>
                let rest := runAttempts st tr method url (attempt + 1) remaining
                { trace := dbg :: Event.callEv attempt :: dbg2 ::
                    rateWarn ra :: Event.sleepEv (ra : ℚ) :: rest.trace,
                  outcome := rest.outcome }
          else if 500 ≤ r.status ∧ attempt < st.maxRetries then
            let rest := runAttempts st tr method url (attempt + 1) remaining
            { trace := dbg :: Event.callEv attempt :: dbg2 ::
                serverWarn r.status ::
                Event.sleepEv (st.retryDelay * ((attempt + 1 : Nat) : ℚ)) ::
                rest.trace,
              outcome := rest.outcome }
          else
            { trace := [dbg, Event.callEv attempt, dbg2],
              outcome := Except.ok r }

/-- `_make_request`'s retry loop from the top: attempt 0 with the full
budget of `max_retries + 1` iterations. -/
def makeRequest (st : ClientState) (method url : String)
    (tr : Nat → TransportResult) : DispatchResult :=
  runAttempts st tr method url 0 (st.maxRetries + 1)

/-- Lines 121–123: `request_headers = self.session.headers.copy()` then
`request_headers.update(headers)` when per-request headers were passed. -/
def requestHeadersOf (st : ClientState)
    (headers : Option (List (String × String))) : List (String × String) :=
  match headers with
  | some h => ciUpdate st.sessionHeaders h
  | none => st.sessionHeaders

/-- Seconds slept by a `time.sleep` event. -/
def sleepSeconds : Event → Option ℚ
  | Event.sleepEv d => some d
  | _ => none

/-- Whether an event is a `session.request` network call. -/
def isCallEv : Event → Bool
  | Event.callEv _ => true
  | _ => false

/-- The `time.sleep` durations of a dispatch, in order. -/
def sleepsOf (dr : DispatchResult) : List ℚ :=
  dr.trace.filterMap sleepSeconds

/-- Number of network calls (`session.request` invocations) performed. -/
def attemptsOf (dr : DispatchResult) : Nat :=
  dr.trace.countP isCallEv

/-! ## Client state construction and mutation -/

/-- Python truthiness of an optional string (`bool(self.api_key)`):
`None` and the empty string are falsy. -/
def pyTruthyStr : Option String → Bool
  | none => false
  | some s => !s.isEmpty

/-- `APIClient.__init__` (lines 20–60): strips the trailing slashes of
`base_url`, stores `api_key` as given, sets the default `Content-Type`
and `User-Agent` headers, and merges an `Authorization: Bearer` header
only when `api_key` is truthy. -/
def mkClient (baseUrl : String) (apiKey : Option String) (timeout : Int)
    (maxRetries : Nat) (retryDelay : ℚ) (name : String) : ClientState :=
  let headers := ciUpdate []
    [("Content-Type", "application/json"), ("User-Agent", name ++ "/1.0")]
  let headers :=
    if pyTruthyStr apiKey then
      match apiKey with
      | some k => ciSet headers "Authorization" ("Bearer " ++ k)
      | none => headers
    else headers
  { baseUrl := pyRstrip baseUrl '/',
    apiKey := apiKey, timeout := timeout, maxRetries := maxRetries,
    retryDelay := retryDelay, sessionHeaders := headers }

/-- `APIClient.set_api_key` (lines 277–286): stores the key and updates
the `Authorization` header unconditionally. -/
def setApiKey (st : ClientState) (k : String) : ClientState :=
  { st with
    apiKey := some k
    sessionHeaders := ciSet st.sessionHeaders "Authorization" ("Bearer " ++ k) }

/-- `APIClient.set_base_url` (lines 288–296): stores the URL with trailing
slashes stripped. -/
def setBaseUrl (st : ClientState) (u : String) : ClientState :=
  { st with baseUrl := pyRstrip u '/' }

/-- The dictionary `APIClient.get_status` (lines 298–311) returns. -/
structure StatusSnapshot where
  base_url : String
  has_api_key : Bool
  timeout : Int
  max_retries : Nat
  retry_delay : ℚ
deriving DecidableEq

/-- `APIClient.get_status`: `has_api_key` is `bool(self.api_key)`; the
token string itself is not among the fields. -/
def getStatus (st : ClientState) : StatusSnapshot :=
  { base_url := st.baseUrl, has_api_key := pyTruthyStr st.apiKey,
    timeout := st.timeout, max_retries := st.maxRetries,
    retry_delay := st.retryDelay }

/-- `get_status` as a state transformer: it only reads the state, so the
state component is returned unchanged. -/
def getStatusM (st : ClientState) : StatusSnapshot × ClientState :=
  (getStatus st, st)

/-- Mutating calls on a client between construction and `get_status`. -/
inductive ClientOp where
  | opSetApiKey (k : String)
  | opSetBaseUrl (u : String)
deriving DecidableEq

/-- Run one mutating call. -/
def applyOp (st : ClientState) : ClientOp → ClientState
  | ClientOp.opSetApiKey k => setApiKey st k
  | ClientOp.opSetBaseUrl u => setBaseUrl st u

/-- Run a sequence of mutating calls. -/
def applyOps (st : ClientState) (ops : List ClientOp) : ClientState :=
  ops.foldl applyOp st

/-- The most recent token supplied, starting from the constructor argument
and folding in every `set_api_key` call. -/
def lastToken (init : Option String) (ops : List ClientOp) : Option String :=
  ops.foldl
    (fun acc op =>
      match op with
      | ClientOp.opSetApiKey k => some k
      | ClientOp.opSetBaseUrl _ => acc) init

/-- The spec's words for C7, stated over the call history: "a token was
set via set_api_key (or at construction)". -/
def specTokenWasSet (init : Option String) (ops : List ClientOp) : Prop :=
  init.isSome = true ∨ ∃ k, ClientOp.opSetApiKey k ∈ ops

/-- `requests.Response.raise_for_status`, as invoked by `get_json` /
`post_json` (lines 253–255, 273–275): statuses 400–599 raise `HTTPError`,
anything else returns normally. -/
def raiseForStatus (r : Response) : Except PyError Response :=
  if 400 ≤ r.status ∧ r.status < 600 then
    Except.error (PyError.httpError r.status)
  else Except.ok r

/-! ## `Config` (src/base/config.py): file-then-environment loading -/

/-- A Python value stored in `Config._config`: JSON scalars from the file,
strings from the environment. -/
inductive PyVal where
  | vstr (s : String)
  | vnum (n : Int)
  | vbool (b : Bool)
  | vnull
deriving DecidableEq

/-- `Config.load_from_env` (lines 49–58): every environment entry whose
name starts with `APP_` is stored under the prefix-stripped, lower-cased
key; its value is the environment string. -/
def loadFromEnv (cfg : List (String × PyVal)) (env : List (String × String)) :
    List (String × PyVal) :=
  env.foldl
    (fun acc kv =>
      if startsWithStr kv.1 "APP_" then
        pySet acc (lowerStr (kv.1.drop 4)) (PyVal.vstr kv.2)
      else acc) cfg

/-- `Config.__init__` (lines 19–34): start empty, `update` with the parsed
JSON file when one was given (and exists), then `load_from_env`. -/
def configInit (fileContent : Option (List (String × PyVal)))
    (env : List (String × String)) : List (String × PyVal) :=
  let cfg : List (String × PyVal) :=
    match fileContent with
    | some fc => pyUpdate [] fc
    | none => []
  loadFromEnv cfg env

/-- The value key `k` has after folding the environment over `init`:
the last `APP_`-prefixed entry mapping to `k` wins. -/
def envOverride (k : String) (env : List (String × String))
    (init : Option PyVal) : Option PyVal :=
  env.foldl
    (fun acc kv =>
      if startsWithStr kv.1 "APP_" ∧ lowerStr (kv.1.drop 4) = k then
        some (PyVal.vstr kv.2)
      else acc) init

/-! ## Concrete instances used by witnesses and counterexamples -/

/-- A bare 429 response with no `Retry-After` header. -/
def resp429 : Response := ⟨429, [], ""⟩

/-- A transport that is rate-limited on every attempt. -/
def trAlways429 : Nat → TransportResult := fun _ => TransportResult.resp resp429

/-- A 429 response carrying `Retry-After: 7`. -/
def respRA7 : Response := ⟨429, [("Retry-After", "7")], ""⟩

/-- A transport returning the `Retry-After: 7` rate limit on every attempt. -/
def trAlwaysRA7 : Nat → TransportResult := fun _ => TransportResult.resp respRA7

/-- A 503 response. -/
def resp503 : Response := ⟨503, [], "Service Unavailable"⟩

/-- A transport failing with 503 on every attempt. -/
def trAlways503 : Nat → TransportResult := fun _ => TransportResult.resp resp503

/-- A 200 response with body `\x7b"ok": true\x7d`. -/
def resp200 : Response := ⟨200, [], "\x7b\x22ok\x22: true\x7d"⟩

/-- A transport succeeding immediately. -/
def trAlways200 : Nat → TransportResult := fun _ => TransportResult.resp resp200

/-- The spec's §8 scenario transport: network failure on the first two
attempts, success on the third. -/
def trScen : Nat → TransportResult := fun n =>
  if n < 2 then TransportResult.netExn "Connection refused"
  else TransportResult.resp resp200

/-- A transport raising `requests.RequestException` on every attempt. -/
def trNetFail : Nat → TransportResult :=
  fun _ => TransportResult.netExn "Connection timed out"

/-- A 429 response whose `Retry-After` value is not an integer literal. -/
def respBadRA : Response := ⟨429, [("Retry-After", "soon")], ""⟩

/-- A transport returning the malformed rate limit on every attempt. -/
def trBadRA : Nat → TransportResult := fun _ => TransportResult.resp respBadRA

/-- A client with `max_retries=2`, `retry_delay=1`. -/
def stMR2 : ClientState := ⟨"https://api.example.com", none, 30, 2, 1, []⟩

/-- A client with `max_retries=0`. -/
def stMR0 : ClientState := ⟨"https://api.example.com", none, 30, 0, 1, []⟩

/-- A client with `max_retries=1`. -/
def stMR1 : ClientState := ⟨"https://api.example.com", none, 30, 1, 1, []⟩

/-- A client whose session has the constructor's default headers. -/
def stHdr : ClientState :=
  ⟨"https://api.example.com", none, 30, 3, 1,
    [("Content-Type", "application/json"), ("User-Agent", "APIClient/1.0")]⟩

/-- Per-request headers colliding case-insensitively with `Content-Type`. -/
def reqHdrs : List (String × String) :=
  [("content-type", "text/plain"), ("X-Request-Id", "42")]

/-- A parsed JSON config file with keys `foo` and `baz`. -/
def fcC10 : List (String × PyVal) :=
  [("foo", PyVal.vnum 1), ("baz", PyVal.vbool true)]

/-- An environment with `APP_FOO` set and an unrelated variable. -/
def envC10 : List (String × String) :=
  [("APP_FOO", "bar"), ("PATH", "/usr/bin")]

/-! # Theorems -/

/-! ## Association-list dictionary lemmas -/

theorem ciGet_ciSet (d : List (String × String)) (k1 v1 k : String) :
    ciGet (ciSet d k1 v1) k =
      if lowerStr k1 = lowerStr k then some v1 else ciGet d k := by
  induction d with
  | nil => simp [ciSet, ciGet]
  | cons hd tl ih =>
      by_cases h1 : lowerStr hd.1 = lowerStr k1
      · by_cases h2 : lowerStr k1 = lowerStr k
        · simp only [ciSet, if_pos h1, ciGet, if_pos h2]
        · simp only [ciSet, if_pos h1, ciGet, if_neg h2,
            if_neg (fun h => h2 (h1.symm.trans h))]
      · by_cases h2 : lowerStr hd.1 = lowerStr k
        · simp only [ciSet, if_neg h1, ciGet, if_pos h2,
            if_neg (fun h : lowerStr k1 = lowerStr k => h1 (h2.trans h.symm))]
        · simp only [ciSet, if_neg h1, ciGet, if_neg h2, ih]

/-- Updating with bindings none of which collides (case-insensitively)
with key `k` leaves the value observed at `k` unchanged. -/
theorem ciGet_ciUpdate_of_no_collision (d upd : List (String × String))
    (k : String) (h : ∀ kv ∈ upd, lowerStr kv.1 ≠ lowerStr k) :
    ciGet (ciUpdate d upd) k = ciGet d k := by
  induction upd generalizing d with
  | nil => rfl
  | cons hd tl ih =>
      have step : ciUpdate d (hd :: tl) = ciUpdate (ciSet d hd.1 hd.2) tl := rfl
      rw [step, ih _ (fun kv hkv => h kv (List.mem_cons_of_mem _ hkv))]
      rw [ciGet_ciSet, if_neg (h hd (List.mem_cons_self _ _))]

/-- If the update dictionary is duplicate-free (case-insensitively) — as a
Python `dict` with distinct lower-cased keys is — then after the update each
of its bindings is the one observed. -/
theorem ciGet_ciUpdate_of_mem (d : List (String × String))
    (upd : List (String × String)) (k v : String)
    (hnodup : upd.Pairwise (fun a b => lowerStr a.1 ≠ lowerStr b.1))
    (hmem : (k, v) ∈ upd) :
    ciGet (ciUpdate d upd) k = some v := by
  induction upd generalizing d with
  | nil => cases hmem
  | cons hd tl ih =>
      have step : ciUpdate d (hd :: tl) = ciUpdate (ciSet d hd.1 hd.2) tl := rfl
      rcases List.mem_cons.mp hmem with heq | htl
      · subst heq
        rw [step, ciGet_ciUpdate_of_no_collision]
        · rw [ciGet_ciSet, if_pos rfl]
        · intro kv hkv
          exact Ne.symm ((List.pairwise_cons.mp hnodup).1 kv hkv)
      · rw [step]
        exact ih (ciSet d hd.1 hd.2) (List.pairwise_cons.mp hnodup).2 htl

/-- `pyGet` after `pySet`: the set key observes the new value, others are
unchanged. -/
theorem pyGet_pySet {α : Type} (d : List (String × α)) (k1 : String) (v : α)
    (k : String) :
    pyGet (pySet d k1 v) k = if k1 = k then some v else pyGet d k := by
  induction d with
  | nil => simp [pySet, pyGet]
  | cons hd tl ih =>
      by_cases h1 : hd.1 = k1
      · by_cases h2 : k1 = k
        · simp only [pySet, if_pos h1, pyGet, if_pos h2]
        · simp only [pySet, if_pos h1, pyGet, if_neg h2,
            if_neg (fun h => h2 (h1.symm.trans h))]
      · by_cases h2 : hd.1 = k
        · simp only [pySet, if_neg h1, pyGet, if_pos h2,
            if_neg (fun h : k1 = k => h1 (h2.trans h.symm))]
        · simp only [pySet, if_neg h1, pyGet, if_neg h2, ih]

/-! ## One-iteration characterizations of the retry loop -/

theorem run_step_netRetry (st : ClientState) (tr : Nat → TransportResult)
    (method url : String) (attempt rem : Nat) (c : String)
    (htr : tr attempt = TransportResult.netExn c)
    (hlt : attempt < st.maxRetries) :
    runAttempts st tr method url attempt (rem + 1) =
      { trace := attemptDbg method url attempt :: Event.callEv attempt ::
          netWarn attempt c ::
          Event.sleepEv (st.retryDelay * ((attempt + 1 : Nat) : ℚ)) ::
          (runAttempts st tr method url (attempt + 1) rem).trace,
        outcome := (runAttempts st tr method url (attempt + 1) rem).outcome } := by
  simp [runAttempts, htr, hlt]

theorem run_step_netRaise (st : ClientState) (tr : Nat → TransportResult)
    (method url : String) (attempt rem : Nat) (c : String)
    (htr : tr attempt = TransportResult.netExn c)
    (hge : ¬ attempt < st.maxRetries) :
    runAttempts st tr method url attempt (rem + 1) =
      { trace := [attemptDbg method url attempt, Event.callEv attempt,
          netErr (st.maxRetries + 1) c],
        outcome := Except.error (PyError.requestException c) } := by
  simp [runAttempts, htr, hge]

theorem run_step_rateLimited (st : ClientState) (tr : Nat → TransportResult)
    (method url : String) (attempt rem : Nat) (r : Response) (ra : Int)
    (htr : tr attempt = TransportResult.resp r)
    (h429 : r.status = 429)
    (hra : retryAfterValue r st.retryDelay = Except.ok ra) :
    runAttempts st tr method url attempt (rem + 1) =
      { trace := attemptDbg method url attempt :: Event.callEv attempt ::
          statusDbg r.status :: rateWarn ra :: Event.sleepEv (ra : ℚ) ::
          (runAttempts st tr method url (attempt + 1) rem).trace,
        outcome := (runAttempts st tr method url (attempt + 1) rem).outcome } := by
  simp [runAttempts, htr, h429, hra]

theorem run_step_rateValueError (st : ClientState) (tr : Nat → TransportResult)
    (method url : String) (attempt rem : Nat) (r : Response) (m : String)
    (htr : tr attempt = TransportResult.resp r)
    (h429 : r.status = 429)
    (hra : retryAfterValue r st.retryDelay = Except.error m) :
    runAttempts st tr method url attempt (rem + 1) =
      { trace := [attemptDbg method url attempt, Event.callEv attempt,
          statusDbg r.status],
        outcome := Except.error (PyError.valueError m) } := by
  simp [runAttempts, htr, h429, hra]

theorem run_step_serverRetry (st : ClientState) (tr : Nat → TransportResult)
    (method url : String) (attempt rem : Nat) (r : Response)
    (htr : tr attempt = TransportResult.resp r)
    (h500 : 500 ≤ r.status)
    (hlt : attempt < st.maxRetries) :
    runAttempts st tr method url attempt (rem + 1) =
      { trace := attemptDbg method url attempt :: Event.callEv attempt ::
          statusDbg r.status :: serverWarn r.status ::
          Event.sleepEv (st.retryDelay * ((attempt + 1 : Nat) : ℚ)) ::
          (runAttempts st tr method url (attempt + 1) rem).trace,
        outcome := (runAttempts st tr method url (attempt + 1) rem).outcome } := by
  have hne : r.status ≠ 429 := by omega
  simp [runAttempts, htr, hne, h500, hlt]

theorem run_step_return (st : ClientState) (tr : Nat → TransportResult)
    (method url : String) (attempt rem : Nat) (r : Response)
    (htr : tr attempt = TransportResult.resp r)
    (hne : r.status ≠ 429)
    (hstop : ¬ (500 ≤ r.status ∧ attempt < st.maxRetries)) :
    runAttempts st tr method url attempt (rem + 1) =
      { trace := [attemptDbg method url attempt, Event.callEv attempt,
          statusDbg r.status],
        outcome := Except.ok r } := by
  simp [runAttempts, htr, hne, hstop]

/-! ## Whole-loop lemmas -/

/-- When every attempt yields a response with status ≥ 500, the loop
consumes its whole iteration budget and returns the last response. -/
theorem run_allServer (st : ClientState) (tr : Nat → TransportResult)
    (m u : String)
    (h : ∀ n, ∃ r, tr n = TransportResult.resp r ∧ 500 ≤ r.status) :
    ∀ rem attempt, attempt + rem = st.maxRetries →
      ∃ r, tr st.maxRetries = TransportResult.resp r ∧
        (runAttempts st tr m u attempt (rem + 1)).outcome = Except.ok r ∧
        attemptsOf (runAttempts st tr m u attempt (rem + 1)) = rem + 1 := by
  intro rem
  induction rem with
  | zero =>
      intro attempt hinv
      have ha : attempt = st.maxRetries := by omega
      subst ha
      obtain ⟨r, htr, h500⟩ := h st.maxRetries
      have hne : r.status ≠ 429 := by omega
      have hstop : ¬ (500 ≤ r.status ∧ st.maxRetries < st.maxRetries) := by
        omega
      refine ⟨r, htr, ?_, ?_⟩ <;>
        rw [run_step_return st tr m u st.maxRetries 0 r htr hne hstop]
      simp [attemptsOf, isCallEv, attemptDbg, statusDbg]
  | succ rem ih =>
      intro attempt hinv
      obtain ⟨r, htr, h500⟩ := h attempt
      have hlt : attempt < st.maxRetries := by omega
      obtain ⟨rN, htrN, hout, hcount⟩ := ih (attempt + 1) (by omega)
      refine ⟨rN, htrN, ?_, ?_⟩ <;>
        rw [run_step_serverRetry st tr m u attempt (rem + 1) r htr h500 hlt]
      · exact hout
      · simp [attemptsOf, List.countP_cons, isCallEv, attemptDbg, statusDbg,
          serverWarn] at hcount ⊢
        omega

/-! ## Claim theorems -/

/-- C3: if the transport returns a status ≥ 500 on every attempt,
`_make_request` performs exactly `max_retries` retries (`max_retries + 1`
total attempts) and then returns the final response unmodified as a normal
result, not an exception. -/
theorem serverErrors_exhaust_then_return (st : ClientState)
    (tr : Nat → TransportResult) (m u : String)
    (h : ∀ n, ∃ r, tr n = TransportResult.resp r ∧ 500 ≤ r.status) :
    ∃ r, tr st.maxRetries = TransportResult.resp r ∧
      (makeRequest st m u tr).outcome = Except.ok r ∧
      attemptsOf (makeRequest st m u tr) = st.maxRetries + 1 := by
  have := run_allServer st tr m u h st.maxRetries 0 (by omega)
  simpa [makeRequest] using this

/-- C3 witness: `max_retries = 0` with an always-503 transport returns the
503 response after a single attempt. -/
theorem serverErrors_exhaust_then_return_witness :
    ∃ r, trAlways503 stMR0.maxRetries = TransportResult.resp r ∧
      (makeRequest stMR0 "GET" "status" trAlways503).outcome = Except.ok r ∧
      attemptsOf (makeRequest stMR0 "GET" "status" trAlways503) =
        stMR0.maxRetries + 1 :=
  serverErrors_exhaust_then_return stMR0 trAlways503 "GET" "status"
    (fun _ => ⟨resp503, rfl, by decide⟩)

/-- C4: a response whose status is neither 429 nor ≥ 500 is returned
immediately by the attempt that produced it, with no further network call
and no sleep. -/
theorem nonRetryable_returns_immediately (st : ClientState)
    (tr : Nat → TransportResult) (m u : String) (attempt rem : Nat)
    (r : Response) (htr : tr attempt = TransportResult.resp r)
    (h429 : r.status ≠ 429) (h500 : r.status < 500) :
    (runAttempts st tr m u attempt (rem + 1)).outcome = Except.ok r ∧
    attemptsOf (runAttempts st tr m u attempt (rem + 1)) = 1 ∧
    sleepsOf (runAttempts st tr m u attempt (rem + 1)) = [] := by
  have hstop : ¬ (500 ≤ r.status ∧ attempt < st.maxRetries) := by omega
  rw [run_step_return st tr m u attempt rem r htr h429 hstop]
  refine ⟨rfl, ?_, ?_⟩ <;>
    simp [attemptsOf, sleepsOf, sleepSeconds, isCallEv, attemptDbg, statusDbg]

/-- C4 witness: a 200 response on the first attempt of a `max_retries = 2`
client is returned at once. -/
theorem nonRetryable_returns_immediately_witness :
    (runAttempts stMR2 trAlways200 "GET" "users" 0 (2 + 1)).outcome =
      Except.ok resp200 ∧
    attemptsOf (runAttempts stMR2 trAlways200 "GET" "users" 0 (2 + 1)) = 1 ∧
    sleepsOf (runAttempts stMR2 trAlways200 "GET" "users" 0 (2 + 1)) = [] :=
  nonRetryable_returns_immediately stMR2 trAlways200 "GET" "users" 0 2 resp200
    rfl (by decide) (by decide)

/-- C6: a network-level failure on the k-th attempt (1-based) with
k ≤ max_retries makes the dispatcher sleep `retry_delay * k` before the
next attempt; the dispatch continues as the loop from attempt k. -/
theorem netFailure_backoff_linear (st : ClientState)
    (tr : Nat → TransportResult) (m u : String) (k rem : Nat) (c : String)
    (hk1 : 1 ≤ k) (hkmax : k ≤ st.maxRetries)
    (htr : tr (k - 1) = TransportResult.netExn c) :
    (runAttempts st tr m u (k - 1) (rem + 1)).trace =
      attemptDbg m u (k - 1) :: Event.callEv (k - 1) :: netWarn (k - 1) c ::
      Event.sleepEv (st.retryDelay * (k : ℚ)) ::
      (runAttempts st tr m u k rem).trace ∧
    (runAttempts st tr m u (k - 1) (rem + 1)).outcome =
      (runAttempts st tr m u k rem).outcome := by
  have hlt : k - 1 < st.maxRetries := by omega
  have hk : k - 1 + 1 = k := by omega
  rw [run_step_netRetry st tr m u (k - 1) rem c htr hlt, hk]
  exact ⟨rfl, rfl⟩

/-- C6 witness: the spec's §8 scenario — `max_retries = 2`,
`retry_delay = 1`, two network failures then a 200: the first failure
sleeps 1 second, and across the whole dispatch the sleeps are 1 then 2
seconds and the 200 body is returned. -/
theorem netFailure_backoff_linear_witness :
    ((runAttempts stMR2 trScen "GET" "items" (1 - 1) (2 + 1)).trace =
      attemptDbg "GET" "items" (1 - 1) :: Event.callEv (1 - 1) ::
      netWarn (1 - 1) "Connection refused" ::
      Event.sleepEv (stMR2.retryDelay * ((1 : Nat) : ℚ)) ::
      (runAttempts stMR2 trScen "GET" "items" 1 2).trace ∧
     (runAttempts stMR2 trScen "GET" "items" (1 - 1) (2 + 1)).outcome =
      (runAttempts stMR2 trScen "GET" "items" 1 2).outcome) ∧
    sleepsOf (makeRequest stMR2 "GET" "items" trScen) = [1, 2] ∧
    (makeRequest stMR2 "GET" "items" trScen).outcome = Except.ok resp200 :=
  ⟨netFailure_backoff_linear stMR2 trScen "GET" "items" 1 2
      "Connection refused" (by decide) (by decide) rfl,
    by
      have h : sleepsOf (makeRequest stMR2 "GET" "items" trScen) =
          [stMR2.retryDelay * ((0 + 1 : Nat) : ℚ),
           stMR2.retryDelay * ((1 + 1 : Nat) : ℚ)] := rfl
      rw [h]
      norm_num [stMR2],
    rfl⟩

/-- C9: a 429 response whose `Retry-After` header does not parse as a
Python integer makes the dispatch raise `ValueError` out of the loop,
with no sleep and no further attempt. -/
theorem badRetryAfter_valueError (st : ClientState)
    (tr : Nat → TransportResult) (m u : String) (attempt rem : Nat)
    (r : Response) (s : String)
    (htr : tr attempt = TransportResult.resp r)
    (h429 : r.status = 429)
    (hhdr : ciGet r.headers "Retry-After" = some s)
    (hbad : pyParseInt s = none) :
    (runAttempts st tr m u attempt (rem + 1)).outcome =
      Except.error (PyError.valueError
        ("invalid literal for int() with base 10: " ++ s)) ∧
    sleepsOf (runAttempts st tr m u attempt (rem + 1)) = [] ∧
    attemptsOf (runAttempts st tr m u attempt (rem + 1)) = 1 := by
  have hra : retryAfterValue r st.retryDelay =
      Except.error ("invalid literal for int() with base 10: " ++ s) := by
    simp [retryAfterValue, hhdr, hbad]
  rw [run_step_rateValueError st tr m u attempt rem r _ htr h429 hra]
  refine ⟨rfl, ?_, ?_⟩ <;>
    simp [attemptsOf, sleepsOf, sleepSeconds, isCallEv, attemptDbg, statusDbg]

/-- C9 witness: `Retry-After: soon` on a 429 raises `ValueError` at once. -/
theorem badRetryAfter_valueError_witness :
    (runAttempts stMR2 trBadRA "GET" "items" 0 (2 + 1)).outcome =
      Except.error (PyError.valueError
        ("invalid literal for int() with base 10: " ++ "soon")) ∧
    sleepsOf (runAttempts stMR2 trBadRA "GET" "items" 0 (2 + 1)) = [] ∧
    attemptsOf (runAttempts stMR2 trBadRA "GET" "items" 0 (2 + 1)) = 1 :=
  badRetryAfter_valueError stMR2 trBadRA "GET" "items" 0 2 respBadRA "soon"
    rfl rfl (by decide) (by decide)

/-- `getLast?` skips the head of a list with a nonempty tail. -/
theorem getLast?_cons_of_tail_ne_nil {α : Type} (a : α) (l : List α)
    (h : l ≠ []) : (a :: l).getLast? = l.getLast? := by
  cases l with
  | nil => exact absurd rfl h
  | cons b t => exact List.getLast?_cons_cons ..

/-- When every attempt raises a network exception, the loop retries until
the budget runs out, logs the attempt count with the last cause, and
re-raises that last cause. -/
theorem run_allNet (st : ClientState) (tr : Nat → TransportResult)
    (m u : String) (h : ∀ n, ∃ c, tr n = TransportResult.netExn c) :
    ∀ rem attempt, attempt + rem = st.maxRetries →
      ∃ c, tr st.maxRetries = TransportResult.netExn c ∧
        (runAttempts st tr m u attempt (rem + 1)).outcome =
          Except.error (PyError.requestException c) ∧
        (runAttempts st tr m u attempt (rem + 1)).trace.getLast? =
          some (netErr (st.maxRetries + 1) c) := by
  intro rem
  induction rem with
  | zero =>
      intro attempt hinv
      have ha : attempt = st.maxRetries := by omega
      subst ha
      obtain ⟨c, htr⟩ := h st.maxRetries
      refine ⟨c, htr, ?_, ?_⟩ <;>
        rw [run_step_netRaise st tr m u st.maxRetries 0 c htr (by omega)]
      rfl
  | succ rem ih =>
      intro attempt hinv
      obtain ⟨c0, htr0⟩ := h attempt
      obtain ⟨c, htrN, hout, hlast⟩ := ih (attempt + 1) (by omega)
      have hlt : attempt < st.maxRetries := by omega
      have hne : (runAttempts st tr m u (attempt + 1) (rem + 1)).trace ≠ [] := by
        intro h0
        rw [h0] at hlast
        simp at hlast
      refine ⟨c, htrN, ?_, ?_⟩ <;>
        rw [run_step_netRetry st tr m u attempt (rem + 1) c0 htr0 hlt]
      · exact hout
      · show (attemptDbg m u attempt :: Event.callEv attempt ::
            netWarn attempt c0 ::
            Event.sleepEv (st.retryDelay * ((attempt + 1 : Nat) : ℚ)) ::
            (runAttempts st tr m u (attempt + 1) (rem + 1)).trace).getLast? =
          some (netErr (st.maxRetries + 1) c)
        rw [getLast?_cons_of_tail_ne_nil _ _ (List.cons_ne_nil _ _),
          getLast?_cons_of_tail_ne_nil _ _ (List.cons_ne_nil _ _),
          getLast?_cons_of_tail_ne_nil _ _ (List.cons_ne_nil _ _),
          getLast?_cons_of_tail_ne_nil _ _ hne]
        exact hlast

/-- C5: when every attempt raises a network-level failure, `_make_request`
retries through the budget and then surfaces a failure that carries the
last underlying cause (the re-raised final exception) and whose error log
names the total attempt count — not the generic message of line 166. -/
theorem netFailures_surface_last_cause (st : ClientState)
    (tr : Nat → TransportResult) (m u : String)
    (h : ∀ n, ∃ c, tr n = TransportResult.netExn c) :
    ∃ c, tr st.maxRetries = TransportResult.netExn c ∧
      (makeRequest st m u tr).outcome =
        Except.error (PyError.requestException c) ∧
      (makeRequest st m u tr).trace.getLast? =
        some (netErr (st.maxRetries + 1) c) := by
  have := run_allNet st tr m u h st.maxRetries 0 (by omega)
  simpa [makeRequest] using this

/-- C5 witness: a transport that always times out, `max_retries = 2`. -/
theorem netFailures_surface_last_cause_witness :
    ∃ c, trNetFail stMR2.maxRetries = TransportResult.netExn c ∧
      (makeRequest stMR2 "GET" "items" trNetFail).outcome =
        Except.error (PyError.requestException c) ∧
      (makeRequest stMR2 "GET" "items" trNetFail).trace.getLast? =
        some (netErr (stMR2.maxRetries + 1) c) :=
  netFailures_surface_last_cause stMR2 trNetFail "GET" "items"
    (fun _ => ⟨"Connection timed out", rfl⟩)

/-- When every attempt is a 429 whose `Retry-After` computation succeeds,
every iteration of the loop sleeps and continues, so the budget empties
and line 166 raises the generic exception after exactly `remaining`
network calls. -/
theorem run_all429 (st : ClientState) (tr : Nat → TransportResult)
    (m u : String)
    (h : ∀ n, ∃ r ra, tr n = TransportResult.resp r ∧ r.status = 429 ∧
        retryAfterValue r st.retryDelay = Except.ok ra) :
    ∀ rem attempt,
      (runAttempts st tr m u attempt rem).outcome =
        Except.error (PyError.requestException "Max retries exceeded") ∧
      attemptsOf (runAttempts st tr m u attempt rem) = rem := by
  intro rem
  induction rem with
  | zero => intro attempt; exact ⟨rfl, rfl⟩
  | succ rem ih =>
      intro attempt
      obtain ⟨r, ra, htr, h429, hra⟩ := h attempt
      obtain ⟨hout, hcount⟩ := ih (attempt + 1)
      refine ⟨?_, ?_⟩ <;>
        rw [run_step_rateLimited st tr m u attempt rem r ra htr h429 hra]
      · exact hout
      · simp [attemptsOf, List.countP_cons, isCallEv, attemptDbg, statusDbg,
          rateWarn] at hcount ⊢
        omega

/-- C1 counterexample: with `max_retries = 2` and a transport answering
429 on every attempt, the loop performs exactly 3 attempts — the 429
retries do consume the `range(max_retries + 1)` budget — and then
terminates by raising the generic line-166 exception, so the attempt
sequence is bounded, contradicting the claimed unbounded rate-limit loop. -/
theorem rateLimited_bounded_counterexample :
    attemptsOf (makeRequest stMR2 "GET" "items" trAlways429) = 3 ∧
    (makeRequest stMR2 "GET" "items" trAlways429).outcome =
      Except.error (PyError.requestException "Max retries exceeded") :=
  ⟨rfl, rfl⟩

/-- C1 amended: a 429 response always triggers a sleep (honoring a parsed
`Retry-After`, else the truncated `retry_delay`) and a retry, but each such
retry consumes one iteration of the `max_retries + 1` loop budget; a
transport returning 429 on every attempt therefore causes exactly
`max_retries + 1` attempts followed by a raised generic
`RequestException("Max retries exceeded")`. -/
theorem rateLimited_consumes_attempt_budget (st : ClientState)
    (tr : Nat → TransportResult) (m u : String)
    (h : ∀ n, ∃ r ra, tr n = TransportResult.resp r ∧ r.status = 429 ∧
        retryAfterValue r st.retryDelay = Except.ok ra) :
    attemptsOf (makeRequest st m u tr) = st.maxRetries + 1 ∧
    (makeRequest st m u tr).outcome =
      Except.error (PyError.requestException "Max retries exceeded") := by
  have := run_all429 st tr m u h (st.maxRetries + 1) 0
  exact ⟨this.2, this.1⟩

/-- C1 amended witness: `max_retries = 1` with `Retry-After: 7` rate
limits on both attempts. -/
theorem rateLimited_consumes_attempt_budget_witness :
    attemptsOf (makeRequest stMR1 "GET" "items" trAlwaysRA7) =
      stMR1.maxRetries + 1 ∧
    (makeRequest stMR1 "GET" "items" trAlwaysRA7).outcome =
      Except.error (PyError.requestException "Max retries exceeded") :=
  rateLimited_consumes_attempt_budget stMR1 trAlwaysRA7 "GET" "items"
    (fun _ => ⟨respRA7, 7, rfl, rfl, rfl⟩)

/-- When every attempt yields a response, every 429's `Retry-After`
computation succeeds, and the final loop attempt is not a 429, the loop
returns some response. -/
theorem run_responses_return (st : ClientState) (tr : Nat → TransportResult)
    (m u : String)
    (hresp : ∀ n, ∃ r, tr n = TransportResult.resp r)
    (hparse : ∀ n r, tr n = TransportResult.resp r → r.status = 429 →
        ∃ ra, retryAfterValue r st.retryDelay = Except.ok ra)
    (hlast : ∀ r, tr st.maxRetries = TransportResult.resp r →
        r.status ≠ 429) :
    ∀ rem attempt, attempt + rem = st.maxRetries →
      ∃ r, (runAttempts st tr m u attempt (rem + 1)).outcome =
        Except.ok r := by
  intro rem
  induction rem with
  | zero =>
      intro attempt hinv
      have ha : attempt = st.maxRetries := by omega
      subst ha
      obtain ⟨r, htr⟩ := hresp st.maxRetries
      have hne := hlast r htr
      refine ⟨r, ?_⟩
      rw [run_step_return st tr m u st.maxRetries 0 r htr hne (by omega)]
  | succ rem ih =>
      intro attempt hinv
      obtain ⟨r, htr⟩ := hresp attempt
      by_cases h429 : r.status = 429
      · obtain ⟨ra, hra⟩ := hparse attempt r htr h429
        obtain ⟨rr, hrr⟩ := ih (attempt + 1) (by omega)
        refine ⟨rr, ?_⟩
        rw [run_step_rateLimited st tr m u attempt (rem + 1) r ra htr h429 hra]
        exact hrr
      · by_cases h500 : 500 ≤ r.status
        · have hlt : attempt < st.maxRetries := by omega
          obtain ⟨rr, hrr⟩ := ih (attempt + 1) (by omega)
          refine ⟨rr, ?_⟩
          rw [run_step_serverRetry st tr m u attempt (rem + 1) r htr h500 hlt]
          exact hrr
        · refine ⟨r, ?_⟩
          rw [run_step_return st tr m u attempt (rem + 1) r htr h429
            (by omega)]

/-- C2 counterexample: with `max_retries = 0` every attempt of the
always-429 transport produces a valid HTTP response, yet `_make_request`
raises the generic line-166 `RequestException` instead of returning a
response object. -/
theorem dispatcher_raises_on_responses_counterexample :
    (makeRequest stMR0 "GET" "items" trAlways429).outcome =
      Except.error (PyError.requestException "Max retries exceeded") :=
  rfl

/-- C2 amended: if every attempt produces a valid HTTP response, every
429's `Retry-After` value is parseable, and the response of the final loop
attempt is not a 429, then the dispatcher returns a response object
without raising, whatever the status codes; the conversion of HTTP error
statuses (400–599) into exceptions happens exactly in
`raise_for_status`, as called by the `get_json`/`post_json` helpers.
(Failure modes the original claim missed: an all-429 run exhausts the
budget and raises the generic line-166 exception, and a malformed
`Retry-After` raises `ValueError`.) -/
theorem responses_return_unless_final_429 (st : ClientState)
    (tr : Nat → TransportResult) (m u : String)
    (hresp : ∀ n, ∃ r, tr n = TransportResult.resp r)
    (hparse : ∀ n r, tr n = TransportResult.resp r → r.status = 429 →
        ∃ ra, retryAfterValue r st.retryDelay = Except.ok ra)
    (hlast : ∀ r, tr st.maxRetries = TransportResult.resp r →
        r.status ≠ 429) :
    (∃ r, (makeRequest st m u tr).outcome = Except.ok r) ∧
    (∀ r : Response,
      (∃ e, raiseForStatus r = Except.error e) ↔
        (400 ≤ r.status ∧ r.status < 600)) := by
  constructor
  · have := run_responses_return st tr m u hresp hparse hlast
      st.maxRetries 0 (by omega)
    simpa [makeRequest] using this
  · intro r
    constructor
    · intro ⟨e, he⟩
      by_contra hcond
      rw [raiseForStatus, if_neg hcond] at he
      cases he
    · intro hcond
      exact ⟨PyError.httpError r.status, by rw [raiseForStatus, if_pos hcond]⟩

/-- C2 amended witness: an immediate 200 is returned, and
`raise_for_status` errors exactly on 400–599. -/
theorem responses_return_unless_final_429_witness :
    (∃ r, (makeRequest stMR2 "GET" "users" trAlways200).outcome =
      Except.ok r) ∧
    (∀ r : Response,
      (∃ e, raiseForStatus r = Except.error e) ↔
        (400 ≤ r.status ∧ r.status < 600)) :=
  responses_return_unless_final_429 stMR2 trAlways200 "GET" "users"
    (fun _ => ⟨resp200, rfl⟩)
    (fun n r hr h429 => by
      simp only [trAlways200] at hr
      injection hr with hre
      rw [← hre] at h429
      exact absurd h429 (by decide))
    (fun r hr => by
      simp only [trAlways200] at hr
      injection hr with hre
      rw [← hre]
      decide)

/-- Python truthiness of `some s` is exactly non-emptiness of `s`. -/
theorem pyTruthyStr_some_iff (s : String) :
    pyTruthyStr (some s) = true ↔ s ≠ "" := by
  constructor
  · intro h he
    subst he
    exact absurd h (by decide)
  · intro h
    cases hh : s.isEmpty
    · simp [pyTruthyStr, hh]
    · exact absurd ((String.isEmpty_iff s).mp hh) h

/-- Running the mutating calls leaves `api_key` at the most recent token
supplied. -/
theorem applyOps_apiKey (ops : List ClientOp) :
    ∀ st : ClientState, (applyOps st ops).apiKey = lastToken st.apiKey ops := by
  induction ops with
  | nil => intro st; rfl
  | cons op rest ih =>
      intro st
      cases op with
      | opSetApiKey k =>
          have hstep : applyOps st (ClientOp.opSetApiKey k :: rest) =
              applyOps (setApiKey st k) rest := rfl
          rw [hstep, ih]
          rfl
      | opSetBaseUrl v =>
          have hstep : applyOps st (ClientOp.opSetBaseUrl v :: rest) =
              applyOps (setBaseUrl st v) rest := rfl
          rw [hstep, ih]
          rfl

/-- C7 counterexample: construct a client without a key, then call
`set_api_key("")`.  A token has been set via `set_api_key`, yet
`get_status()["has_api_key"]` — `bool(self.api_key)` — is `False`, because
Python string truthiness treats the empty token as no token. -/
theorem hasApiKey_iff_tokenSet_counterexample :
    ¬ (((getStatus (applyOps
          (mkClient "https://api.example.com" none 30 3 1 "APIClient")
          [ClientOp.opSetApiKey ""])).has_api_key = true) ↔
        specTokenWasSet none [ClientOp.opSetApiKey ""]) := by
  intro hiff
  have hset : specTokenWasSet none [ClientOp.opSetApiKey ""] :=
    Or.inr ⟨"", by simp⟩
  exact absurd (hiff.mpr hset) (by decide)

/-- C7 amended: `has_api_key` is true iff the most recently supplied token
(at construction or via `set_api_key`) is a non-empty string (Python
truthiness of `self.api_key`); the snapshot does not depend on the value
of a non-empty token, so it never leaks the token string; and
`get_status` does not mutate the client, so two consecutive calls return
equal snapshots. -/
theorem hasApiKey_truthiness (b : String) (a : Option String) (t : Int)
    (mr : Nat) (rd : ℚ) (nm : String) (ops : List ClientOp)
    (st : ClientState) (t1 t2 : String) (h1 : t1 ≠ "") (h2 : t2 ≠ "") :
    ((getStatus (applyOps (mkClient b a t mr rd nm) ops)).has_api_key = true ↔
      (∃ s, lastToken a ops = some s ∧ s ≠ "")) ∧
    getStatus (setApiKey st t1) = getStatus (setApiKey st t2) ∧
    (getStatusM ((getStatusM st).2)).1 = (getStatusM st).1 := by
  refine ⟨?_, ?_, rfl⟩
  · have hkey : (applyOps (mkClient b a t mr rd nm) ops).apiKey =
        lastToken a ops := by
      rw [applyOps_apiKey]
      rfl
    show pyTruthyStr (applyOps (mkClient b a t mr rd nm) ops).apiKey = true ↔ _
    rw [hkey]
    cases hopt : lastToken a ops with
    | none => simp [pyTruthyStr]
    | some s =>
        rw [pyTruthyStr_some_iff]
        simp
  · have e1 : t1.isEmpty = false := by
      cases hh : t1.isEmpty
      · rfl
      · exact absurd ((String.isEmpty_iff t1).mp hh) h1
    have e2 : t2.isEmpty = false := by
      cases hh : t2.isEmpty
      · rfl
      · exact absurd ((String.isEmpty_iff t2).mp hh) h2
    simp [getStatus, setApiKey, pyTruthyStr, e1, e2]

/-- C7 amended witness: set `"abc"` or `"xyz"` over a fresh client. -/
theorem hasApiKey_truthiness_witness :
    ((getStatus (applyOps
        (mkClient "https://api.example.com" none 30 3 1 "APIClient")
        [ClientOp.opSetApiKey "abc"])).has_api_key = true ↔
      (∃ s, lastToken none [ClientOp.opSetApiKey "abc"] = some s ∧
        s ≠ "")) ∧
    getStatus (setApiKey stMR2 "abc") = getStatus (setApiKey stMR2 "xyz") ∧
    (getStatusM ((getStatusM stMR2).2)).1 = (getStatusM stMR2).1 :=
  hasApiKey_truthiness "https://api.example.com" none 30 3 1 "APIClient"
    [ClientOp.opSetApiKey "abc"] stMR2 "abc" "xyz"
    (by decide) (by decide)

/-- C8: the headers sent are the session's default headers updated with
the per-request headers: a per-request binding wins on a (case-insensitive)
key collision, and any default key that collides with no per-request key
keeps its default value. -/
theorem requestHeaders_merge (st : ClientState)
    (h : List (String × String)) (k v k2 : String)
    (hnodup : h.Pairwise (fun a b => lowerStr a.1 ≠ lowerStr b.1))
    (hmem : (k, v) ∈ h)
    (hmiss : ∀ kv ∈ h, lowerStr kv.1 ≠ lowerStr k2) :
    ciGet (requestHeadersOf st (some h)) k = some v ∧
    ciGet (requestHeadersOf st (some h)) k2 = ciGet st.sessionHeaders k2 := by
  constructor
  · exact ciGet_ciUpdate_of_mem st.sessionHeaders h k v hnodup hmem
  · exact ciGet_ciUpdate_of_no_collision st.sessionHeaders h k2 hmiss

/-- C8 witness: the per-request `content-type` overrides the default
`Content-Type` case-insensitively; `User-Agent` is preserved. -/
theorem requestHeaders_merge_witness :
    ciGet (requestHeadersOf stHdr (some reqHdrs)) "content-type" =
      some "text/plain" ∧
    ciGet (requestHeadersOf stHdr (some reqHdrs)) "User-Agent" =
      ciGet stHdr.sessionHeaders "User-Agent" :=
  requestHeaders_merge stHdr reqHdrs "content-type" "text/plain" "User-Agent"
    (by decide) (by decide) (by decide)

/-- `load_from_env` folded over the environment: the observed value of a
key is the last `APP_`-prefixed environment override, else what the
accumulator held. -/
theorem pyGet_loadFromEnv (env : List (String × String)) :
    ∀ (cfg : List (String × PyVal)) (k : String),
      pyGet (loadFromEnv cfg env) k = envOverride k env (pyGet cfg k) := by
  induction env with
  | nil => intro cfg k; rfl
  | cons kv rest ih =>
      intro cfg k
      by_cases hp : startsWithStr kv.1 "APP_"
      · have hstep : loadFromEnv cfg (kv :: rest) =
            loadFromEnv (pySet cfg (lowerStr (kv.1.drop 4))
              (PyVal.vstr kv.2)) rest := by
          simp only [loadFromEnv, List.foldl_cons, if_pos hp]
        rw [hstep, ih]
        rw [pyGet_pySet]
        by_cases hk : lowerStr (kv.1.drop 4) = k
        · simp only [envOverride, List.foldl_cons, if_pos hk,
            if_pos (And.intro hp hk)]
        · simp only [envOverride, List.foldl_cons, if_neg hk,
            if_neg (fun hc : startsWithStr kv.1 "APP_" ∧ _ => hk hc.2)]
      · have hstep : loadFromEnv cfg (kv :: rest) = loadFromEnv cfg rest := by
          simp only [loadFromEnv, List.foldl_cons, if_neg hp]
        rw [hstep, ih]
        simp only [envOverride, List.foldl_cons,
          if_neg (fun hc : startsWithStr kv.1 "APP_" ∧ _ => hp hc.1)]

/-- A present environment override is independent of the fold's start
value. -/
theorem envOverride_some (k : String) (env : List (String × String)) :
    ∀ (w : PyVal), envOverride k env none = some w →
      ∀ init, envOverride k env init = some w := by
  induction env with
  | nil =>
      intro w hw init
      exact absurd hw (by simp [envOverride])
  | cons kv rest ih =>
      intro w hw init
      by_cases hc : startsWithStr kv.1 "APP_" ∧ lowerStr (kv.1.drop 4) = k
      · simp only [envOverride, List.foldl_cons, if_pos hc] at hw ⊢
        exact hw
      · simp only [envOverride, List.foldl_cons, if_neg hc] at hw ⊢
        exact ih w hw init

/-- C10: for a key present both in the JSON config file and (after prefix
stripping and lower-casing) as an `APP_`-prefixed environment variable,
the constructed `Config` holds the environment value: `__init__` loads the
file first and `load_from_env` then overwrites the key. -/
theorem config_env_overrides_file (fc : List (String × PyVal))
    (env : List (String × String)) (k v : String) (w : PyVal)
    (hfile : pyGet fc k = some w)
    (henv : envOverride k env none = some (PyVal.vstr v)) :
    pyGet (configInit (some fc) env) k = some (PyVal.vstr v) := by
  have hc : configInit (some fc) env = loadFromEnv (pyUpdate [] fc) env := rfl
  rw [hc, pyGet_loadFromEnv]
  exact envOverride_some k env (PyVal.vstr v) henv _

/-- C10 witness: file `foo = 1`, environment `APP_FOO=bar` — the config
reads `foo` as the string `"bar"`. -/
theorem config_env_overrides_file_witness :
    pyGet (configInit (some fcC10) envC10) "foo" =
      some (PyVal.vstr "bar") :=
  config_env_overrides_file fcC10 envC10 "foo" "bar" (PyVal.vnum 1)
    (by decide) (by decide)

end HfBase
